import Mathlib

/-
Verification of src/static/js/home.js (Hero Video Controller).

The file wires three DOM elements (a video, a play overlay button, a pause
button). We embed the observable state the handlers touch: each button's
class list (DOM classList token semantics: `add` is a no-op when the token is
already present, `remove` deletes every occurrence of the token) and a call
counter for `video.play()` / `video.pause()`. Each event handler from the
source becomes a Lean function on this state, and the DOMContentLoaded
initialization guard becomes a function from the three (possibly absent)
elements to the list of attached listeners.
-/

namespace HeroVideo

/-- Token-set `classList.add`: appends the class only when absent. -/
def classAdd (cs : List String) (c : String) : List String :=
  if c ∈ cs then cs else c :: cs

/-- Token-set `classList.remove`: deletes every occurrence of the class. -/
def classRemove (cs : List String) (c : String) : List String :=
  cs.filter (fun x => x != c)

/-- The observable state the three handlers read and write: the two buttons'
class lists and the number of times `video.play()` / `video.pause()` have
been invoked. -/
structure State where
  playClasses : List String
  pauseClasses : List String
  playCalls : Nat
  pauseCalls : Nat
deriving Repr, DecidableEq

/-- The three DOM events the controller reacts to. -/
inductive Event where
  | playClick
  | pauseClick
  | ended
deriving Repr, DecidableEq

/-- Handler attached to the play button's "click" event:
`video.play(); playButton.classList.add("d-none");
pauseButton.classList.remove("pause-hidden");`. -/
def playClickHandler (s : State) : State :=
  { s with
    playCalls := s.playCalls + 1
    playClasses := classAdd s.playClasses "d-none"
    pauseClasses := classRemove s.pauseClasses "pause-hidden" }

/-- Handler attached to the pause button's "click" event: `video.pause();`. -/
def pauseClickHandler (s : State) : State :=
  { s with pauseCalls := s.pauseCalls + 1 }

/-- Handler attached to the video's "ended" event:
`pauseButton.classList.add("pause-hidden");
playButton.classList.remove("d-none");`. -/
def endedHandler (s : State) : State :=
  { s with
    pauseClasses := classAdd s.pauseClasses "pause-hidden"
    playClasses := classRemove s.playClasses "d-none" }

/-- Dispatch one event to its handler. -/
def step : Event → State → State
  | Event.playClick => playClickHandler
  | Event.pauseClick => pauseClickHandler
  | Event.ended => endedHandler

/-- Dispatch a sequence of events in order. -/
def run (es : List Event) (s : State) : State :=
  es.foldl (fun s e => step e s) s

/-- The play control is visible iff it does not carry the "d-none" class. -/
def playVisible (s : State) : Bool :=
  !(s.playClasses.contains "d-none")

/-- The pause control is visible iff it does not carry the "pause-hidden"
class. -/
def pauseVisible (s : State) : Bool :=
  !(s.pauseClasses.contains "pause-hidden")

/-- The three elements looked up by `getElementById` at initialization; each
is `none` when absent from the page. The payload is irrelevant to the guard. -/
structure Dom where
  video : Option Unit
  playButton : Option Unit
  pauseButton : Option Unit
deriving Repr, DecidableEq

/-- A listener registration target. -/
inductive Target where
  | video
  | playButton
  | pauseButton
deriving Repr, DecidableEq

/-- The listeners the DOMContentLoaded callback attaches, as (target, event
name) pairs. The source returns before attaching anything when any of the
three lookups is null (`if (!video || !playButton || !pauseButton) return;`);
otherwise it attaches all three listeners. -/
def attachedListeners (d : Dom) : List (Target × String) :=
  match d.video, d.playButton, d.pauseButton with
  | some _, some _, some _ =>
      [(Target.playButton, "click"), (Target.pauseButton, "click"),
       (Target.video, "ended")]
  | _, _, _ => []

theorem mem_classAdd_self (cs : List String) (c : String) :
    c ∈ classAdd cs c := by
  unfold classAdd
  split
  · assumption
  · exact List.mem_cons_self c cs

theorem not_mem_classRemove_self (cs : List String) (c : String) :
    c ∉ classRemove cs c := by
  unfold classRemove
  intro h
  have := (List.mem_filter.mp h).2
  simp at this

theorem mem_classAdd_of_ne (cs : List String) {c d : String} (h : c ≠ d) :
    c ∈ classAdd cs d ↔ c ∈ cs := by
  unfold classAdd
  split
  · exact Iff.rfl
  · simp [h]

theorem mem_classRemove_of_ne (cs : List String) {c d : String} (h : c ≠ d) :
    c ∈ classRemove cs d ↔ c ∈ cs := by
  unfold classRemove
  rw [List.mem_filter]
  simp [h]

theorem classAdd_idem (cs : List String) (c : String) :
    classAdd (classAdd cs c) c = classAdd cs c := by
  unfold classAdd
  split
  · simp_all
  · simp

theorem classRemove_idem (cs : List String) (c : String) :
    classRemove (classRemove cs c) c = classRemove cs c := by
  unfold classRemove
  rw [List.filter_filter]
  simp

theorem classRemove_of_not_mem (cs : List String) {c : String}
    (h : c ∉ cs) : classRemove cs c = cs := by
  unfold classRemove
  apply List.filter_eq_self.mpr
  intro a ha
  simp
  exact fun hac => h (hac ▸ ha)

theorem playVisible_eq_true_iff (s : State) :
    playVisible s = true ↔ "d-none" ∉ s.playClasses := by
  simp [playVisible, List.contains, List.elem_iff]

theorem playVisible_eq_false_iff (s : State) :
    playVisible s = false ↔ "d-none" ∈ s.playClasses := by
  simp [playVisible, List.contains, List.elem_iff]

theorem pauseVisible_eq_true_iff (s : State) :
    pauseVisible s = true ↔ "pause-hidden" ∉ s.pauseClasses := by
  simp [pauseVisible, List.contains, List.elem_iff]

theorem pauseVisible_eq_false_iff (s : State) :
    pauseVisible s = false ↔ "pause-hidden" ∈ s.pauseClasses := by
  simp [pauseVisible, List.contains, List.elem_iff]

theorem step_preserves_notBoth (e : Event) (s : State)
    (h : ¬(playVisible s = true ∧ pauseVisible s = true)) :
    ¬(playVisible (step e s) = true ∧ pauseVisible (step e s) = true) := by
  cases e with
  | playClick =>
      intro hc
      have hf : playVisible (step Event.playClick s) = false :=
        (playVisible_eq_false_iff _).mpr (mem_classAdd_self _ _)
      rw [hc.1] at hf
      exact Bool.noConfusion hf
  | pauseClick => exact h
  | ended =>
      intro hc
      have hf : pauseVisible (step Event.ended s) = false :=
        (pauseVisible_eq_false_iff _).mpr (mem_classAdd_self _ _)
      rw [hc.2] at hf
      exact Bool.noConfusion hf

theorem run_preserves_notBoth (es : List Event) (s : State)
    (h : ¬(playVisible s = true ∧ pauseVisible s = true)) :
    ¬(playVisible (run es s) = true ∧ pauseVisible (run es s) = true) := by
  induction es generalizing s with
  | nil => exact h
  | cons e es ih => exact ih (step e s) (step_preserves_notBoth e s h)

/-- C1: with all three elements present and the controls carrying their
initial classes (play visible, pause hidden), activating the play control
invokes `video.play()` exactly once, leaves the play control carrying
"d-none", and leaves the pause control not carrying "pause-hidden". -/
theorem play_transition (s : State)
    (_hplay : "d-none" ∉ s.playClasses)
    (_hpause : "pause-hidden" ∈ s.pauseClasses) :
    (step Event.playClick s).playCalls = s.playCalls + 1 ∧
    "d-none" ∈ (step Event.playClick s).playClasses ∧
    "pause-hidden" ∉ (step Event.playClick s).pauseClasses :=
  ⟨rfl, mem_classAdd_self _ _, not_mem_classRemove_self _ _⟩

/-- Witness for `play_transition` at the concrete initial state. -/
theorem play_transition_witness :
    (step Event.playClick (State.mk [] ["pause-hidden"] 0 0)).playCalls
      = 0 + 1 ∧
    "d-none" ∈ (step Event.playClick
      (State.mk [] ["pause-hidden"] 0 0)).playClasses ∧
    "pause-hidden" ∉ (step Event.playClick
      (State.mk [] ["pause-hidden"] 0 0)).pauseClasses :=
  play_transition (State.mk [] ["pause-hidden"] 0 0) (by decide) (by decide)

/-- C2: dispatching "ended" on the video leaves the pause control carrying
"pause-hidden" and the play control not carrying "d-none", for every prior
visibility state of the two controls. -/
theorem ended_reset (s : State) :
    "pause-hidden" ∈ (step Event.ended s).pauseClasses ∧
    "d-none" ∉ (step Event.ended s).playClasses :=
  ⟨mem_classAdd_self _ _, not_mem_classRemove_self _ _⟩

/-- C3: activating the pause control invokes `video.pause()` exactly once
and leaves both buttons' class lists exactly as they were before the click. -/
theorem pause_invocation (s : State) :
    (step Event.pauseClick s).pauseCalls = s.pauseCalls + 1 ∧
    (step Event.pauseClick s).playClasses = s.playClasses ∧
    (step Event.pauseClick s).pauseClasses = s.pauseClasses :=
  ⟨rfl, rfl, rfl⟩

/-- C4: when any of the three required elements is missing at
initialization, no event listener is attached to anything, and binding is
all-or-nothing: the attached listeners are either empty or exactly the
three of the source. -/
theorem init_guard (d : Dom) :
    ((d.video = none ∨ d.playButton = none ∨ d.pauseButton = none) →
      attachedListeners d = []) ∧
    (attachedListeners d = [] ∨
      attachedListeners d =
        [(Target.playButton, "click"), (Target.pauseButton, "click"),
         (Target.video, "ended")]) := by
  obtain ⟨v, p, q⟩ := d
  cases v <;> cases p <;> cases q <;> simp [attachedListeners]

/-- Witness for `init_guard` with the video element missing. -/
theorem init_guard_witness :
    attachedListeners (Dom.mk none (some ()) (some ())) = [] :=
  (init_guard (Dom.mk none (some ()) (some ()))).1 (Or.inl rfl)

/-- C5: from any state with play visible and pause hidden (in particular
the initial state), every sequence of reactions preserves the predicate
that the two controls are never both visible. -/
theorem at_most_one_visible (s : State)
    (h0 : playVisible s = true ∧ pauseVisible s = false)
    (es : List Event) :
    ¬(playVisible (run es s) = true ∧ pauseVisible (run es s) = true) := by
  apply run_preserves_notBoth
  intro hc
  rw [h0.2] at hc
  exact Bool.noConfusion hc.2

/-- Witness for `at_most_one_visible` at the initial state with a concrete
event sequence. -/
theorem at_most_one_visible_witness :
    ¬(playVisible (run [Event.playClick, Event.pauseClick, Event.ended]
        (State.mk [] ["pause-hidden"] 0 0)) = true ∧
      pauseVisible (run [Event.playClick, Event.pauseClick, Event.ended]
        (State.mk [] ["pause-hidden"] 0 0)) = true) :=
  at_most_one_visible (State.mk [] ["pause-hidden"] 0 0)
    ⟨by decide, by decide⟩ [Event.playClick, Event.pauseClick, Event.ended]

/-- C6: dispatching "ended" twice in succession leaves the same class state
on both controls as dispatching it once. -/
theorem ended_idempotent (s : State) :
    (step Event.ended (step Event.ended s)).playClasses =
      (step Event.ended s).playClasses ∧
    (step Event.ended (step Event.ended s)).pauseClasses =
      (step Event.ended s).pauseClasses :=
  ⟨classRemove_idem _ _, classAdd_idem _ _⟩

/-- C7: from a start state with play visible and pause hidden, clicking
play yields play hidden and pause visible with `video.play()` called
exactly once, and then dispatching "ended" restores play visible and pause
hidden. -/
theorem round_trip (s : State)
    (_hplay : playVisible s = true)
    (_hpause : pauseVisible s = false) :
    playVisible (step Event.playClick s) = false ∧
    pauseVisible (step Event.playClick s) = true ∧
    (step Event.playClick s).playCalls = s.playCalls + 1 ∧
    playVisible (step Event.ended (step Event.playClick s)) = true ∧
    pauseVisible (step Event.ended (step Event.playClick s)) = false :=
  ⟨(playVisible_eq_false_iff _).mpr (mem_classAdd_self _ _),
   (pauseVisible_eq_true_iff _).mpr (not_mem_classRemove_self _ _),
   rfl,
   (playVisible_eq_true_iff _).mpr (not_mem_classRemove_self _ _),
   (pauseVisible_eq_false_iff _).mpr (mem_classAdd_self _ _)⟩

/-- Witness for `round_trip` at the concrete initial state. -/
theorem round_trip_witness :
    playVisible (step Event.playClick
      (State.mk [] ["pause-hidden"] 0 0)) = false ∧
    pauseVisible (step Event.playClick
      (State.mk [] ["pause-hidden"] 0 0)) = true ∧
    (step Event.playClick (State.mk [] ["pause-hidden"] 0 0)).playCalls
      = 0 + 1 ∧
    playVisible (step Event.ended (step Event.playClick
      (State.mk [] ["pause-hidden"] 0 0))) = true ∧
    pauseVisible (step Event.ended (step Event.playClick
      (State.mk [] ["pause-hidden"] 0 0))) = false :=
  round_trip (State.mk [] ["pause-hidden"] 0 0) (by decide) (by decide)

/-- C8: every reaction changes the controls only on the two recognized
class names: membership of any class other than "d-none" in the play
control's class list, and of any class other than "pause-hidden" in the
pause control's class list, is unchanged by every event. -/
theorem frame_classes (e : Event) (s : State) (c : String) :
    (c ≠ "d-none" →
      (c ∈ (step e s).playClasses ↔ c ∈ s.playClasses)) ∧
    (c ≠ "pause-hidden" →
      (c ∈ (step e s).pauseClasses ↔ c ∈ s.pauseClasses)) := by
  cases e with
  | playClick =>
      exact ⟨fun h => mem_classAdd_of_ne _ h,
             fun h => mem_classRemove_of_ne _ h⟩
  | pauseClick => exact ⟨fun _ => Iff.rfl, fun _ => Iff.rfl⟩
  | ended =>
      exact ⟨fun h => mem_classRemove_of_ne _ h,
             fun h => mem_classAdd_of_ne _ h⟩

/-- Witness for `frame_classes`: the play click leaves an unrelated class
on the play control untouched. -/
theorem frame_classes_witness :
    "other" ∈ (step Event.playClick
      (State.mk ["other"] [] 0 0)).playClasses ↔
    "other" ∈ (State.mk ["other"] [] 0 0).playClasses :=
  (frame_classes Event.playClick (State.mk ["other"] [] 0 0) "other").1
    (by decide)

/-- C9: the visibility state a reaction produces depends only on which
event fired: for play click and "ended" the resulting visibility of both
controls agrees across any two prior states, and the pause click leaves
both class lists unchanged. -/
theorem visibility_depends_only_on_event (s t : State) :
    (playVisible (step Event.playClick s)
        = playVisible (step Event.playClick t) ∧
      pauseVisible (step Event.playClick s)
        = pauseVisible (step Event.playClick t)) ∧
    (playVisible (step Event.ended s) = playVisible (step Event.ended t) ∧
      pauseVisible (step Event.ended s)
        = pauseVisible (step Event.ended t)) ∧
    ((step Event.pauseClick s).playClasses = s.playClasses ∧
      (step Event.pauseClick s).pauseClasses = s.pauseClasses) := by
  refine ⟨⟨?_, ?_⟩, ⟨?_, ?_⟩, rfl, rfl⟩
  · rw [(playVisible_eq_false_iff _).mpr (mem_classAdd_self _ _),
        (playVisible_eq_false_iff _).mpr (mem_classAdd_self _ _)]
  · rw [(pauseVisible_eq_true_iff _).mpr (not_mem_classRemove_self _ _),
        (pauseVisible_eq_true_iff _).mpr (not_mem_classRemove_self _ _)]
  · rw [(playVisible_eq_true_iff _).mpr (not_mem_classRemove_self _ _),
        (playVisible_eq_true_iff _).mpr (not_mem_classRemove_self _ _)]
  · rw [(pauseVisible_eq_false_iff _).mpr (mem_classAdd_self _ _),
        (pauseVisible_eq_false_iff _).mpr (mem_classAdd_self _ _)]

/-- C10: activating play twice in succession leaves the same class state on
both controls as activating it once, while `video.play()` is invoked once
per activation (twice in total). -/
theorem play_idempotent_on_classes (s : State) :
    (step Event.playClick (step Event.playClick s)).playClasses =
      (step Event.playClick s).playClasses ∧
    (step Event.playClick (step Event.playClick s)).pauseClasses =
      (step Event.playClick s).pauseClasses ∧
    (step Event.playClick (step Event.playClick s)).playCalls
      = s.playCalls + 2 :=
  ⟨classAdd_idem _ _, classRemove_idem _ _, rfl⟩

end HeroVideo
